import Mathlib

/-!
Shallow embedding of the preferences/UI layer of the reviewed audio-editor
repository:

* `src/src/ProjectSettings.h` — the per-project settings store
  (`ProjectSettings`, `ToolCodes`, the inline accessors `SetTool`/`GetTool`
  and the atomic `SetPlaySpeed`/`GetPlaySpeed`).
* `src/src/widgets/HelpSystem.h` (second part: `ThemePrefs.cpp`) — the theme
  preferences panel: `OnLoadThemePackage` with its exception-to-message-box
  catch ladder, the image-cache and theme-components load/save handlers,
  `ApplyUpdatedImages`, `Populate`/`PopulateOrExchange`/`Commit`.

C++ `double` carries the playback speed only through an atomic store and an
atomic load (no arithmetic), so it is embedded as `ℚ`; `wxString` and
`std::string` as `String`; the C++ `int` fields as `Int`.  Handlers are
embedded as pure functions from their inputs (dialog result, collaborator
outcomes) to the unchanged-or-updated global state together with the list of
observable effects (collaborator calls, message boxes, notifications) the
handler body performs, in program order.
-/

/-- `NumericFormatSymbol` of the source, embedded as its identifying string. -/
structure NumericFormatSymbol where
  symbol : String
deriving DecidableEq, Repr

/-- The anonymous snap-mode enum of `ProjectSettings.h` (lines 28–33). -/
def SNAP_OFF : Int := 0

def SNAP_NEAREST : Int := 1

def SNAP_PRIOR : Int := 2

namespace ToolCodes

/-- `ToolCodes` enum of `ProjectSettings.h` (lines 35–47). -/
def selectTool : Int := 0

def envelopeTool : Int := 1

def drawTool : Int := 2

def zoomTool : Int := 3

def multiTool : Int := 4

def numTools : Int := 5

def firstTool : Int := selectTool

def lastTool : Int := multiTool

end ToolCodes

/-- The data fields of class `ProjectSettings` (`ProjectSettings.h`,
lines 116–141), minus the back-reference `mProject` to the owning project,
which carries no settings data.  `mPlaySpeed` is `std::atomic<double>` in the
source; its value is embedded as `ℚ` since the accessors only store and load
it. -/
structure ProjectSettings where
  mSelectionFormat : NumericFormatSymbol
  mFrequencySelectionFormatName : NumericFormatSymbol
  mBandwidthSelectionFormatName : NumericFormatSymbol
  mAudioTimeFormat : NumericFormatSymbol
  mSoloPref : String
  mPlaySpeed : ℚ
  mSnapTo : Int
  mCurrentTool : Int
  mTracksFitVerticallyZoomed : Bool
  mShowId3Dialog : Bool
  mIsSyncLocked : Bool
  mEmptyCanBeDirty : Bool
  mShowSplashScreen : Bool
deriving DecidableEq, Repr

namespace ProjectSettings

/-- `void SetTool(int tool) \x7b mCurrentTool = tool; \x7d` (line 85).
No validation is performed on `tool`. -/
def SetTool (s : ProjectSettings) (tool : Int) : ProjectSettings :=
  { s with mCurrentTool := tool }

/-- `int GetTool() const \x7b return mCurrentTool; \x7d` (line 86). -/
def GetTool (s : ProjectSettings) : Int :=
  s.mCurrentTool

/-- `GetPlaySpeed` (lines 89–90): a relaxed atomic load of `mPlaySpeed`. -/
def GetPlaySpeed (s : ProjectSettings) : ℚ :=
  s.mPlaySpeed

/-- `SetPlaySpeed` (lines 91–92): a relaxed atomic store to `mPlaySpeed`. -/
def SetPlaySpeed (s : ProjectSettings) (value : ℚ) : ProjectSettings :=
  { s with mPlaySpeed := value }

/-- `SetTracksFitVerticallyZoomed` (line 70). -/
def SetTracksFitVerticallyZoomed (s : ProjectSettings) (flag : Bool) :
    ProjectSettings :=
  { s with mTracksFitVerticallyZoomed := flag }

/-- `GetTracksFitVerticallyZoomed` (line 69). -/
def GetTracksFitVerticallyZoomed (s : ProjectSettings) : Bool :=
  s.mTracksFitVerticallyZoomed

/-- `SetShowId3Dialog` (line 73). -/
def SetShowId3Dialog (s : ProjectSettings) (flag : Bool) : ProjectSettings :=
  { s with mShowId3Dialog := flag }

/-- `GetShowId3Dialog` (line 72). -/
def GetShowId3Dialog (s : ProjectSettings) : Bool :=
  s.mShowId3Dialog

end ProjectSettings

/-- A tool code is one of the enumerated tools `selectTool .. multiTool`
(`firstTool = selectTool`, `lastTool = multiTool`; `numTools` is a count, not
a tool). -/
def validToolCode (t : Int) : Prop :=
  ToolCodes.firstTool ≤ t ∧ t ≤ ToolCodes.lastTool

instance (t : Int) : Decidable (validToolCode t) := by
  unfold validToolCode; infer_instance

/-- The mutating operations of `ProjectSettings` whose bodies are visible
(inline) in `ProjectSettings.h`; used to quantify over "any sequence of
operations" on a settings instance. -/
inductive SettingsOp where
  | setTool (tool : Int)
  | setPlaySpeed (value : ℚ)
  | setTracksFitVerticallyZoomed (flag : Bool)
  | setShowId3Dialog (flag : Bool)
deriving DecidableEq, Repr

/-- Run one visible mutator on a settings instance. -/
def applyOp (s : ProjectSettings) : SettingsOp → ProjectSettings
  | .setTool t => s.SetTool t
  | .setPlaySpeed v => s.SetPlaySpeed v
  | .setTracksFitVerticallyZoomed b => s.SetTracksFitVerticallyZoomed b
  | .setShowId3Dialog b => s.SetShowId3Dialog b

/-- Run a sequence of visible mutators, in order. -/
def applyOps (s : ProjectSettings) (ops : List SettingsOp) : ProjectSettings :=
  ops.foldl applyOp s

/-- Events on the atomic `mPlaySpeed` scalar, used to model an arbitrary
interleaving of UI-thread `SetPlaySpeed` calls with scrubber-thread
`GetPlaySpeed` calls.  `std::atomic<double>` store and load are each a single
indivisible step, so a `write` event installs its whole value at once and a
`read` event observes the whole current value. -/
inductive SpeedEvent where
  | write (value : ℚ)
  | read (value : ℚ)
deriving DecidableEq, Repr

/-- `validSpeedTrace s t` holds when `t` is a possible interleaved history of
the atomic `mPlaySpeed` cell starting from settings state `s`: each `write v`
is one `SetPlaySpeed` step and each `read v` records the value a concurrent
`GetPlaySpeed` returned at that point. -/
def validSpeedTrace (s : ProjectSettings) : List SpeedEvent → Bool
  | [] => true
  | .write v :: rest => validSpeedTrace (s.SetPlaySpeed v) rest
  | .read v :: rest => decide (s.GetPlaySpeed = v) && validSpeedTrace s rest

/-- A concrete settings value used by witnesses and counterexamples. -/
def sampleSettings : ProjectSettings :=
  { mSelectionFormat := ⟨"hh:mm:ss"⟩
    mFrequencySelectionFormatName := ⟨"Hz"⟩
    mBandwidthSelectionFormatName := ⟨"octaves"⟩
    mAudioTimeFormat := ⟨"hh:mm:ss"⟩
    mSoloPref := "Simple"
    mPlaySpeed := 1
    mSnapTo := SNAP_OFF
    mCurrentTool := ToolCodes.selectTool
    mTracksFitVerticallyZoomed := false
    mShowId3Dialog := true
    mIsSyncLocked := false
    mEmptyCanBeDirty := true
    mShowSplashScreen := true }

/-! ## ThemePrefs (`src/src/widgets/HelpSystem.h`, second part: ThemePrefs.cpp) -/

/-- `ArchiveError::Type` of `lib-theme/exceptions/ArchiveError.h`, as consumed
by the `switch (aee.GetErrorType())` in `OnLoadThemePackage`. -/
inductive ArchiveErrorType where
  | InvalidArchive
  | OperationalError
deriving DecidableEq, Repr

/-- The exceptions the `try` block of `ThemePrefs::OnLoadThemePackage` can
catch, one constructor per `catch` clause: `std::invalid_argument` (carrying
its `what()` string), `std::bad_alloc`, `ThemeExceptions::IncompatibleTheme`,
and `ThemeExceptions::ArchiveError` (carrying its `GetErrorType()`). -/
inductive ParseFailure where
  | invalidArgument (what : String)
  | badAlloc
  | incompatibleTheme
  | archiveError (errorType : ArchiveErrorType)
deriving DecidableEq, Repr

/-- The five failure classes of the handler's catch ladder (the archive-error
clause splits on the two `ArchiveError::Type` sub-kinds). -/
inductive FailureClass where
  | malformedInput
  | outOfMemory
  | versionIncompatible
  | invalidArchiveStructure
  | operationalArchiveError
deriving DecidableEq, Repr

/-- The failure class of a caught exception. -/
def failureClass : ParseFailure → FailureClass
  | .invalidArgument _ => .malformedInput
  | .badAlloc => .outOfMemory
  | .incompatibleTheme => .versionIncompatible
  | .archiveError .InvalidArchive => .invalidArchiveStructure
  | .archiveError .OperationalError => .operationalArchiveError

/-- A message box shown via `AudacityMessageBox(message, caption, wxOK)`. -/
structure ShownMessage where
  message : String
  caption : String
deriving DecidableEq, Repr

/-- The message box each `catch` clause of `OnLoadThemePackage` shows
(HelpSystem.h lines 380–400), transcribed clause by clause:
`std::invalid_argument` → `XO("Error: %s").Format(e.what())` /
"Invalid theme"; `std::bad_alloc` → "Cannot allocate memory" /
"Memory error"; `IncompatibleTheme` → "Theme package incompatible with this
version of Tenacity" / "Incompatible theme"; `ArchiveError` switches on its
type: `InvalidArchive` → "Theme package invalid" / "Invalid archive",
`OperationalError` → "Error while working on archive" /
"Operational error". -/
def catchMessage : ParseFailure → ShownMessage
  | .invalidArgument what => ⟨"Error: " ++ what, "Invalid theme"⟩
  | .badAlloc => ⟨"Cannot allocate memory", "Memory error"⟩
  | .incompatibleTheme =>
      ⟨"Theme package incompatible with this version of Tenacity",
        "Incompatible theme"⟩
  | .archiveError .InvalidArchive => ⟨"Theme package invalid", "Invalid archive"⟩
  | .archiveError .OperationalError =>
      ⟨"Error while working on archive", "Operational error"⟩

/-- The caption (failure-class naming title) per failure class. -/
def classCaption : FailureClass → String
  | .malformedInput => "Invalid theme"
  | .outOfMemory => "Memory error"
  | .versionIncompatible => "Incompatible theme"
  | .invalidArchiveStructure => "Invalid archive"
  | .operationalArchiveError => "Operational error"

/-- Observable actions a ThemePrefs handler performs, in program order:
collaborator calls (`theTheme`, `AColor`, `ThemePackage`), modal dialogs,
message boxes, and the `EVT_THEME_CHANGE` notification. -/
inductive Effect where
  | showFileDialog
  | openPackage (path : String)
  | parsePackage
  | messageBox (m : ShownMessage)
  | reinitColors
  | themeChange
  | readImageCache
  | readImageCacheFallback
  | createImageCache
  | writeImageMap
  | loadComponents
  | saveComponents
  | saveThemeAsCode
  | writeImageDefs
deriving DecidableEq, Repr

/-- Result of `fileDialog.ShowModal()` plus `fileDialog.GetPath()`: the user
cancelled (`wxID_CANCEL`), or confirmed a path. -/
inductive DialogResult where
  | cancel
  | ok (path : String)
deriving DecidableEq, Repr

/-- The program state outside the handler that `OnLoadThemePackage` could in
principle touch: the active theme (`theTheme`'s images and colours, as an
abstract token) and the stored preference values. -/
structure GlobalState where
  activeTheme : String
  guiTheme : String
  guiBlendThemes : Bool
deriving DecidableEq, Repr

/-- `ThemePrefs::OnLoadThemePackage` (HelpSystem.h lines 357–401).  Inputs:
the global state, the file-dialog outcome, and the outcomes of the two
collaborator calls `theme.OpenPackage(path)` and `theme.ParsePackage()`
(`some f` = the call throws exception `f`, `none` = it returns).  The local
`ThemePackage theme` is destroyed when the handler returns, so the result is
the global state after the run plus the ordered effects of the body:
if the dialog is cancelled the handler returns at once; otherwise the `try`
block opens, then parses, then shows the "Package OK!" box, and the first
exception jumps to its `catch` clause which shows `catchMessage`. -/
def OnLoadThemePackage (g : GlobalState) (dialog : DialogResult)
    (openResult parseResult : Option ParseFailure) : GlobalState × List Effect :=
  match dialog with
  | .cancel => (g, [.showFileDialog])
  | .ok path =>
    match openResult with
    | some f => (g, [.showFileDialog, .openPackage path,
                     .messageBox (catchMessage f)])
    | none =>
      match parseResult with
      | some f => (g, [.showFileDialog, .openPackage path, .parsePackage,
                       .messageBox (catchMessage f)])
      | none => (g, [.showFileDialog, .openPackage path, .parsePackage,
                     .messageBox ⟨"Package OK!", "Success!"⟩])

/-- `ThemePrefs::ApplyUpdatedImages` (lines 444–450): `AColor::ReInit()` then
raise `EVT_THEME_CHANGE` through `wxTheApp->SafelyProcessEvent`. -/
def ApplyUpdatedImages : List Effect :=
  [.reinitColors, .themeChange]

/-- `ThemePrefs::OnLoadThemeComponents` (lines 404–408):
`theTheme.LoadComponents()` then `ApplyUpdatedImages()`. -/
def OnLoadThemeComponents : List Effect :=
  .loadComponents :: ApplyUpdatedImages

/-- `ThemePrefs::OnSaveThemeComponents` (lines 411–414):
`theTheme.SaveComponents()` and nothing else. -/
def OnSaveThemeComponents : List Effect :=
  [.saveComponents]

/-- `ThemePrefs::OnLoadThemeCache` (lines 417–421):
`theTheme.ReadImageCache()` then `ApplyUpdatedImages()`. -/
def OnLoadThemeCache : List Effect :=
  .readImageCache :: ApplyUpdatedImages

/-- `ThemePrefs::OnSaveThemeCache` (lines 424–428):
`theTheme.CreateImageCache()` then `theTheme.WriteImageMap()`;
no `ApplyUpdatedImages()` call. -/
def OnSaveThemeCache : List Effect :=
  [.createImageCache, .writeImageMap]

/-- `ThemePrefs::OnReadThemeInternal` (lines 431–435):
`theTheme.ReadImageCache(theTheme.GetFallbackThemeType())` then
`ApplyUpdatedImages()`. -/
def OnReadThemeInternal : List Effect :=
  .readImageCacheFallback :: ApplyUpdatedImages

/-! ## Panel populate/exchange (ShuttleGui shuttle semantics) -/

/-- The stored preference values `ThemePrefs::PopulateOrExchange` ties:
the `GUITheme()` choice setting and the `GUIBlendThemes` checkbox setting. -/
structure ThemePrefsStore where
  guiThemeChoice : String
  guiBlendThemes : Bool
deriving DecidableEq, Repr

/-- The panel's widget contents for the two tied controls. -/
structure ThemePrefsForm where
  themeChoiceCtrl : String
  blendCheckBoxCtrl : Bool
deriving DecidableEq, Repr

/-- The shuttle direction of a `ShuttleGui`: `eIsCreatingFromPrefs` (build the
controls initialised from the stored values) or `eIsSavingToPrefs` (write the
control contents back to storage). -/
inductive ShuttleMode where
  | eIsCreatingFromPrefs
  | eIsSavingToPrefs
deriving DecidableEq, Repr

/-- Modelled from the spec: `ShuttleGui`'s `TieChoice`/`TieCheckBox` shuttle
semantics are owned by `src/shuttle/ShuttleGui.h`, which is not among the
supplied files.  Per §4.2, one dual-direction routine serves both load and
save: in the load direction each tied control is filled from its stored
value, in the save direction each stored value is overwritten from its tied
control.  `PopulateOrExchange` applies that to the two bindings the source
routine declares (`S.TieChoice(..., GUITheme())` and
`S.TieCheckBox(..., GUIBlendThemes)`). -/
def PopulateOrExchange (mode : ShuttleMode) (store : ThemePrefsStore)
    (form : ThemePrefsForm) : ThemePrefsStore × ThemePrefsForm :=
  match mode with
  | .eIsCreatingFromPrefs =>
      (store, { themeChoiceCtrl := store.guiThemeChoice
                blendCheckBoxCtrl := store.guiBlendThemes })
  | .eIsSavingToPrefs =>
      ({ guiThemeChoice := form.themeChoiceCtrl
         guiBlendThemes := form.blendCheckBoxCtrl }, form)

/-- `ThemePrefs::Populate` (lines 251–262): run `PopulateOrExchange` with a
`ShuttleGui` in `eIsCreatingFromPrefs` mode. -/
def Populate (store : ThemePrefsStore) (form : ThemePrefsForm) :
    ThemePrefsStore × ThemePrefsForm :=
  PopulateOrExchange .eIsCreatingFromPrefs store form

/-- `ThemePrefs::Commit` (lines 453–459): run `PopulateOrExchange` with a
`ShuttleGui` in `eIsSavingToPrefs` mode, returning `true`. -/
def Commit (store : ThemePrefsStore) (form : ThemePrefsForm) :
    (ThemePrefsStore × ThemePrefsForm) × Bool :=
  (PopulateOrExchange .eIsSavingToPrefs store form, true)

/-! ## Claims -/

/-- Claim C1: every run of the Load Theme Package handler maps each failure
class raised by opening or parsing the package to that class's own
user-facing message — malformed input to "Invalid theme", out-of-memory to
"Memory error", version-incompatible to "Incompatible theme",
invalid-archive-structure to "Invalid archive" and operational archive
errors to "Operational error" — and no two failure classes share a
message caption. -/
theorem loadThemePackage_failure_messages_distinct :
    (∀ f : ParseFailure, (catchMessage f).caption = classCaption (failureClass f)) ∧
    List.map classCaption
        [FailureClass.malformedInput, FailureClass.outOfMemory,
         FailureClass.versionIncompatible, FailureClass.invalidArchiveStructure,
         FailureClass.operationalArchiveError] =
      ["Invalid theme", "Memory error", "Incompatible theme",
       "Invalid archive", "Operational error"] ∧
    (List.map classCaption
        [FailureClass.malformedInput, FailureClass.outOfMemory,
         FailureClass.versionIncompatible, FailureClass.invalidArchiveStructure,
         FailureClass.operationalArchiveError]).Nodup ∧
    (∀ (g : GlobalState) (path : String) (f : ParseFailure)
        (pr : Option ParseFailure),
      Effect.messageBox (catchMessage f) ∈
          (OnLoadThemePackage g (.ok path) (some f) pr).2 ∧
      Effect.messageBox (catchMessage f) ∈
          (OnLoadThemePackage g (.ok path) none (some f)).2) := by
  refine ⟨?_, rfl, by decide, ?_⟩
  · intro f
    cases f with
    | invalidArgument w => rfl
    | badAlloc => rfl
    | incompatibleTheme => rfl
    | archiveError t => cases t <;> rfl
  · intro g path f pr
    constructor <;> simp [OnLoadThemePackage]

/-- Claim C2, counterexample: the image-cache save handler raises no
theme-changed notification (and neither does the components save handler),
refuting the claim that the save direction has the same notification
contract as the load direction. -/
theorem saveThemeCache_raises_no_themeChange :
    Effect.themeChange ∉ OnSaveThemeCache ∧
    Effect.themeChange ∉ OnSaveThemeComponents := by
  decide

/-- Claim C2, amended: on success the two load-direction handlers
(image-cache load, theme-components load) raise the global theme-changed
notification, but the two save-direction handlers (image-cache save,
theme-components save) raise none. -/
theorem themePrefs_load_handlers_only_notify :
    Effect.themeChange ∈ OnLoadThemeCache ∧
    Effect.themeChange ∈ OnLoadThemeComponents ∧
    Effect.themeChange ∉ OnSaveThemeCache ∧
    Effect.themeChange ∉ OnSaveThemeComponents := by
  decide

/-- Claim C3, counterexample: `SetTool` stores its argument unvalidated, so
the single-operation sequence `SetTool(99)` drives the current-tool field
outside the enumerated tool codes. -/
theorem setTool_escapes_tool_codes :
    ProjectSettings.GetTool (applyOps sampleSettings [SettingsOp.setTool 99]) = 99 ∧
    ¬ validToolCode
        (ProjectSettings.GetTool (applyOps sampleSettings [SettingsOp.setTool 99])) := by
  refine ⟨rfl, by decide⟩

/-- Claim C3, amended: the current-tool field holds an enumerated tool code
after any sequence of the visible mutators, provided it starts as one and
every `SetTool` argument in the sequence is itself an enumerated tool code
(the setter performs no validation of its own). -/
theorem tool_code_invariant_preserved (s : ProjectSettings)
    (ops : List SettingsOp) (hs : validToolCode s.GetTool)
    (hops : ∀ t : Int, SettingsOp.setTool t ∈ ops → validToolCode t) :
    validToolCode (applyOps s ops).GetTool := by
  induction ops generalizing s with
  | nil => exact hs
  | cons op rest ih =>
    have hstep : validToolCode (applyOp s op).GetTool := by
      cases op with
      | setTool t => exact hops t (List.mem_cons_self _ _)
      | setPlaySpeed v => exact hs
      | setTracksFitVerticallyZoomed b => exact hs
      | setShowId3Dialog b => exact hs
    exact ih (applyOp s op) hstep
      (fun t ht => hops t (List.mem_cons_of_mem _ ht))

/-- Witness for the amended C3 theorem at a concrete state and sequence. -/
theorem tool_code_invariant_preserved_witness :
    validToolCode
      (applyOps sampleSettings
        [SettingsOp.setPlaySpeed 2, SettingsOp.setTool ToolCodes.drawTool]).GetTool :=
  tool_code_invariant_preserved sampleSettings
    [SettingsOp.setPlaySpeed 2, SettingsOp.setTool ToolCodes.drawTool]
    (by decide)
    (by
      intro t ht
      cases ht with
      | tail _ ht2 =>
        cases ht2 with
        | head => decide
        | tail _ ht3 => cases ht3)

/-- Claim C4: whenever opening or parsing the package fails with a handled
failure class, the Load Theme Package handler leaves the global state (in
particular the active theme) unchanged, raises no theme-changed
notification, and terminates right after showing that class's message box;
a version-mismatch failure in particular surfaces the caption
"Incompatible theme" rather than a generic failure caption. -/
theorem loadThemePackage_failure_frame (g : GlobalState) (path : String)
    (f : ParseFailure) (pr : Option ParseFailure) :
    (OnLoadThemePackage g (.ok path) (some f) pr).1 = g ∧
    (OnLoadThemePackage g (.ok path) none (some f)).1 = g ∧
    Effect.themeChange ∉ (OnLoadThemePackage g (.ok path) (some f) pr).2 ∧
    Effect.themeChange ∉ (OnLoadThemePackage g (.ok path) none (some f)).2 ∧
    (OnLoadThemePackage g (.ok path) (some f) pr).2.getLast? =
      some (.messageBox (catchMessage f)) ∧
    (OnLoadThemePackage g (.ok path) none (some f)).2.getLast? =
      some (.messageBox (catchMessage f)) ∧
    (catchMessage .incompatibleTheme).caption = "Incompatible theme" ∧
    (catchMessage .incompatibleTheme).caption ≠ "Success!" := by
  refine ⟨rfl, rfl, ?_, ?_, rfl, rfl, rfl, by decide⟩ <;>
    simp [OnLoadThemePackage]

/-- Claim C5: when opening and parsing the package both succeed, the Load
Theme Package handler mutates no global state and raises no theme-changed
notification: its whole observable behaviour is the file dialog, the two
validation calls on the local package object, and the success message box. -/
theorem loadThemePackage_success_frame (g : GlobalState) (path : String) :
    OnLoadThemePackage g (.ok path) none none =
      (g, [.showFileDialog, .openPackage path, .parsePackage,
           .messageBox ⟨"Package OK!", "Success!"⟩]) ∧
    (OnLoadThemePackage g (.ok path) none none).1 = g ∧
    Effect.themeChange ∉ (OnLoadThemePackage g (.ok path) none none).2 := by
  refine ⟨rfl, rfl, ?_⟩
  simp [OnLoadThemePackage]

/-- Claim C6: for every enumerated tool code `t`, `SetTool t` followed by
`GetTool` on the same settings instance returns `t`. -/
theorem setTool_getTool (s : ProjectSettings) (t : Int)
    (_h : validToolCode t) : (s.SetTool t).GetTool = t :=
  rfl

/-- Witness for the C6 theorem at the zoom tool. -/
theorem setTool_getTool_witness :
    validToolCode ToolCodes.zoomTool ∧
    (sampleSettings.SetTool ToolCodes.zoomTool).GetTool = ToolCodes.zoomTool :=
  ⟨by decide, setTool_getTool sampleSettings ToolCodes.zoomTool (by decide)⟩

/-- Claim C7: `SetPlaySpeed 1.5` followed immediately by `GetPlaySpeed` on
the same settings instance returns exactly `1.5` (`3/2`): the accessors
store and load the value unchanged. -/
theorem setPlaySpeed_getPlaySpeed_exact (s : ProjectSettings) :
    (s.SetPlaySpeed (3 / 2)).GetPlaySpeed = 3 / 2 :=
  rfl

/-- Claim C8: populating the theme panel in the load direction and then
immediately committing in the save direction leaves every stored preference
value equal to its value before the round trip (an unmodified form writes
back exactly what it read). -/
theorem populate_then_commit_unchanged (store : ThemePrefsStore)
    (form : ThemePrefsForm) :
    (Commit (Populate store form).1 (Populate store form).2).1.1 = store ∧
    (Commit (Populate store form).1 (Populate store form).2).2 = true := by
  constructor
  · cases store
    rfl
  · rfl

/-- Claim C9: over every interleaving of atomic `SetPlaySpeed` writes with
concurrent `GetPlaySpeed` reads of the same settings instance, each value a
read observes is the initial play-speed value or the whole value of some
write in the trace — never a torn value, since the atomic store installs its
value in one indivisible step. -/
theorem speed_reads_never_torn (s : ProjectSettings) (tr : List SpeedEvent)
    (h : validSpeedTrace s tr = true) (v : ℚ)
    (hv : SpeedEvent.read v ∈ tr) :
    v = s.GetPlaySpeed ∨ SpeedEvent.write v ∈ tr := by
  induction tr generalizing s with
  | nil => cases hv
  | cons e rest ih =>
    cases e with
    | write w =>
      rw [validSpeedTrace] at h
      rcases List.mem_cons.mp hv with h1 | h2
      · cases h1
      · rcases ih (s.SetPlaySpeed w) h h2 with h3 | h3
        · right
          rw [h3]
          exact List.mem_cons_self _ _
        · right
          exact List.mem_cons_of_mem _ h3
    | read w =>
      rw [validSpeedTrace, Bool.and_eq_true, decide_eq_true_eq] at h
      obtain ⟨hw, hrest⟩ := h
      rcases List.mem_cons.mp hv with h1 | h2
      · left
        injection h1 with h1
        rw [h1, hw]
      · rcases ih s hrest h2 with h3 | h3
        · left
          exact h3
        · right
          exact List.mem_cons_of_mem _ h3

/-- Witness for the C9 theorem on a concrete two-writer/one-reader
interleaving. -/
theorem speed_reads_never_torn_witness :
    validSpeedTrace sampleSettings
        [SpeedEvent.write 2, SpeedEvent.read 2, SpeedEvent.write 3] = true ∧
    SpeedEvent.read 2 ∈
        [SpeedEvent.write 2, SpeedEvent.read 2, SpeedEvent.write 3] ∧
    ((2 : ℚ) = sampleSettings.GetPlaySpeed ∨
      SpeedEvent.write 2 ∈
        [SpeedEvent.write 2, SpeedEvent.read 2, SpeedEvent.write 3]) :=
  ⟨by decide, by decide,
    speed_reads_never_torn sampleSettings
      [SpeedEvent.write 2, SpeedEvent.read 2, SpeedEvent.write 3]
      (by decide) 2 (by decide)⟩

/-- Claim C10: when the user cancels the file-selection dialog, the Load
Theme Package handler returns at once: it opens no package, parses nothing,
shows no message box, and leaves the global state unchanged. -/
theorem loadThemePackage_cancel_noop (g : GlobalState)
    (openResult parseResult : Option ParseFailure) :
    OnLoadThemePackage g .cancel openResult parseResult =
      (g, [.showFileDialog]) ∧
    (OnLoadThemePackage g .cancel openResult parseResult).1 = g ∧
    (∀ p : String,
      Effect.openPackage p ∉
        (OnLoadThemePackage g .cancel openResult parseResult).2) ∧
    Effect.parsePackage ∉
      (OnLoadThemePackage g .cancel openResult parseResult).2 ∧
    (∀ m : ShownMessage,
      Effect.messageBox m ∉
        (OnLoadThemePackage g .cancel openResult parseResult).2) := by
  refine ⟨rfl, rfl, ?_, ?_, ?_⟩ <;> simp [OnLoadThemePackage]
